import Mathlib

/-!
Verification of the heartbeat delivery and offline-resilience subsystem of
the acode-wakatime plugin (src/src/main.js and src/src/offline.js), as a
shallow embedding in Lean 4.

Modelling conventions:
* JavaScript numbers holding epoch milliseconds (`Date.now()`) are `Nat`;
  the payload field `time` (`now / 1000`, possibly fractional) is `ℚ`.
* `localStorage` under the single storage key is `Option (List QueuedHeartbeat)`:
  `none` when the key is absent (`removeItem`), `some l` after `setItem`.
* A JavaScript promise is `Except JsError α`: `.ok` a fulfilled value,
  `.error` a rejection; `.then` / `.catch` are `pThen` / `pCatch`.
* `fetch` is an oracle `HttpRequest → Except JsError HttpResponse` supplied
  per call position; `btoa` (base64) is an opaque oracle `String → String`.
-/

namespace AcodeWakatime

/-- A JavaScript string tested for truthiness (`!s`): `null`/`undefined` is
`none`, and the empty string is also falsy. -/
def falsyStr : Option String → Bool
  | none => true
  | some s => s = ""

/-- Error value carried by a rejected promise. -/
abbrev JsError := String

/-- Promise `.then` on a settled promise: a rejected promise propagates, a
fulfilled one runs the handler (which may itself return a rejected promise). -/
def pThen (p : Except JsError α) (f : α → Except JsError β) : Except JsError β :=
  match p with
  | Except.ok a => f a
  | Except.error e => Except.error e

/-- Promise `.catch` on a settled promise: a fulfilled promise passes through,
a rejected one runs the handler. -/
def pCatch (p : Except JsError α) (f : JsError → Except JsError α) : Except JsError α :=
  match p with
  | Except.ok a => Except.ok a
  | Except.error e => f e

/-- An HTTP response as seen through the fetch API; `status` is the code. -/
structure HttpResponse where
  status : Nat
deriving Repr, DecidableEq

/-- `response.ok` of the fetch API: status in the inclusive range 200-299. -/
def HttpResponse.ok (r : HttpResponse) : Bool :=
  200 ≤ r.status && r.status ≤ 299

/-- The heartbeat payload assembled in `sendHeartbeat` (main.js lines 150-158)
and the clean body rebuilt in `syncSingleHeartbeat` (offline.js lines 244-252):
exactly the seven semantic wire fields. -/
structure HeartbeatData where
  entity : String
  type : String
  time : ℚ
  is_write : Bool
  plugin : String
  language : String
  project : String
deriving Repr, DecidableEq

/-- A stored heartbeat as built by `storeHeartbeat` (offline.js lines 66-70):
the payload fields plus the bookkeeping fields `apiKey`, `timestamp`
(enqueue-time `Date.now()`) and `retryCount`. -/
structure QueuedHeartbeat where
  entity : String
  type : String
  time : ℚ
  is_write : Bool
  plugin : String
  language : String
  project : String
  apiKey : String
  timestamp : Nat
  retryCount : Nat
deriving Repr, DecidableEq

/-- `this.maxRetries = 3` (offline.js line 22). -/
def maxRetries : Nat := 3

/-- The persistent state of `WakaTimeOfflineHandler` that the claims concern:
the connectivity flag, the re-entrancy flag, and the `localStorage` slot under
`this.storageKey` (`none` = key absent). -/
structure OfflineState where
  isOnline : Bool
  syncInProgress : Bool
  storage : Option (List QueuedHeartbeat)
deriving Repr, DecidableEq

/-- `getStoredHeartbeats` (offline.js lines 93-104): parse the stored value,
or `[]` when the key is absent. -/
def getStoredHeartbeats (st : OfflineState) : List QueuedHeartbeat :=
  st.storage.getD []

/-- `clearStoredHeartbeats` (offline.js lines 109-119): `removeItem`. -/
def clearStoredHeartbeats (st : OfflineState) : OfflineState :=
  { st with storage := none }

/-- The record `Object.assign({}, heartbeatData, ...)` built by
`storeHeartbeat` (offline.js lines 66-70): payload plus `apiKey`,
`timestamp := Date.now()` and `retryCount := 0`. -/
def mkQueued (d : HeartbeatData) (apiKey : String) (now : Nat) : QueuedHeartbeat :=
  ⟨d.entity, d.type, d.time, d.is_write, d.plugin, d.language, d.project,
    apiKey, now, 0⟩

/-- `storeHeartbeat` (offline.js lines 63-87): read the stored list, append
the new record, trim to the newest 1000 by `splice(0, length - 1000)` when the
length exceeds 1000, and write the result back. -/
def storeHeartbeat (st : OfflineState) (d : HeartbeatData) (apiKey : String)
    (now : Nat) : OfflineState :=
  let storedData := getStoredHeartbeats st ++ [mkQueued d apiKey now]
  let trimmed :=
    if storedData.length > 1000 then
      storedData.drop (storedData.length - 1000)
    else storedData
  { st with storage := some trimmed }

/-- `isDeviceOnline` (offline.js lines 285-287): the handler flag and the
live `navigator.onLine` reading. -/
def isDeviceOnline (st : OfflineState) (navigatorOnLine : Bool) : Bool :=
  st.isOnline && navigatorOnLine

/-- An outgoing HTTP request as assembled for `fetch`. -/
structure HttpRequest where
  url : String
  method : String
  authorization : String
  contentType : String
  body : HeartbeatData
deriving Repr, DecidableEq

/-- The `cleanHeartbeat` object of `syncSingleHeartbeat` (offline.js lines
244-252): the stored record stripped back to the seven semantic fields. -/
def cleanHeartbeat (hb : QueuedHeartbeat) : HeartbeatData :=
  ⟨hb.entity, hb.type, hb.time, hb.is_write, hb.plugin, hb.language, hb.project⟩

/-- The request `syncSingleHeartbeat` hands to `fetch` (offline.js lines
254-261): POST to the heartbeats endpoint, `Basic btoa(apiKey)` authorization,
JSON body `cleanHeartbeat`. `btoa` is the host's base64 primitive, passed as
an oracle. -/
def syncRequest (btoa : String → String) (hb : QueuedHeartbeat) : HttpRequest :=
  { url := "https://api.wakatime.com/api/v1/users/current/heartbeats"
    method := "POST"
    authorization := "Basic " ++ btoa hb.apiKey
    contentType := "application/json"
    body := cleanHeartbeat hb }

/-- `syncSingleHeartbeat` (offline.js lines 240-279): build the request, run
`fetch` and classify the settled outcome through the `.then` handler (`true`
on `response.ok`, `false` otherwise) and the `.catch` handler (`false` on a
transport rejection). -/
def syncSingleHeartbeat (fetchFn : HttpRequest → Except JsError HttpResponse)
    (btoa : String → String) (hb : QueuedHeartbeat) : Except JsError Bool :=
  pCatch
    (pThen (fetchFn (syncRequest btoa hb))
      (fun response => Except.ok (if response.ok then true else false)))
    (fun _e => Except.ok false)

/-- `heartbeat.retryCount = (heartbeat.retryCount || 0) + 1` (offline.js
lines 207 and 224). -/
def bumpRetry (hb : QueuedHeartbeat) : QueuedHeartbeat :=
  { hb with retryCount := hb.retryCount + 1 }

/-- The observable result of one run of `processHeartbeats` inside
`syncStoredHeartbeats`: the accumulated `successfulSyncs` and `failedSyncs`
arrays, the sequence of records handed to `syncSingleHeartbeat` (in call
order), and how many times the `.catch` callback at offline.js line 219 ran. -/
structure PassResult where
  successfulSyncs : List QueuedHeartbeat
  failedSyncs : List QueuedHeartbeat
  attempts : List QueuedHeartbeat
  catchRuns : Nat
deriving Repr, DecidableEq

/-- The empty accumulators declared at offline.js lines 167-168. -/
def emptyPass : PassResult := ⟨[], [], [], 0⟩

/-- The recursive `processHeartbeats(index)` of `syncStoredHeartbeats`
(offline.js lines 171-230), with the captured arrays made explicit in the
accumulator.  `fetchSeq i` is the behaviour of the network on the pass's
i-th `fetch` call.  On a fulfilled `false` the record's `retryCount` is
incremented and the record kept only while `retryCount < maxRetries`; the
`.error` branch is the `.catch` callback (lines 219-229). -/
def processHeartbeats (fetchSeq : Nat → HttpRequest → Except JsError HttpResponse)
    (btoa : String → String) :
    Nat → List QueuedHeartbeat → PassResult → PassResult
  | _, [], acc => acc
  | i, hb :: rest, acc =>
    match syncSingleHeartbeat (fetchSeq i) btoa hb with
    | Except.ok success =>
      if success then
        processHeartbeats fetchSeq btoa (i + 1) rest
          { acc with
            successfulSyncs := acc.successfulSyncs ++ [hb]
            attempts := acc.attempts ++ [hb] }
      else
        let hb' := bumpRetry hb
        if hb'.retryCount < maxRetries then
          processHeartbeats fetchSeq btoa (i + 1) rest
            { acc with
              failedSyncs := acc.failedSyncs ++ [hb']
              attempts := acc.attempts ++ [hb] }
        else
          processHeartbeats fetchSeq btoa (i + 1) rest
            { acc with attempts := acc.attempts ++ [hb] }
    | Except.error _ =>
      let hb' := bumpRetry hb
      if hb'.retryCount < maxRetries then
        processHeartbeats fetchSeq btoa (i + 1) rest
          { acc with
            failedSyncs := acc.failedSyncs ++ [hb']
            attempts := acc.attempts ++ [hb]
            catchRuns := acc.catchRuns + 1 }
      else
        processHeartbeats fetchSeq btoa (i + 1) rest
          { acc with
            attempts := acc.attempts ++ [hb]
            catchRuns := acc.catchRuns + 1 }

/-- The completion step of a sync pass (offline.js lines 172-196): when
`failedSyncs` is non-empty, `setItem` overwrites the stored key with exactly
`failedSyncs`; otherwise `clearStoredHeartbeats` removes the key; then
`syncInProgress` is reset. -/
def syncFinalWrite (r : PassResult) (st : OfflineState) : OfflineState :=
  if r.failedSyncs.length > 0 then
    { st with storage := some r.failedSyncs, syncInProgress := false }
  else
    { (clearStoredHeartbeats st) with syncInProgress := false }

/-- What one invocation of `syncStoredHeartbeats` produced: the handler state
when its promise resolves, the delivery attempts made, and how many times the
per-record `.catch` callback ran. -/
structure SyncResult where
  state : OfflineState
  attempts : List QueuedHeartbeat
  catchRuns : Nat
deriving Repr, DecidableEq

/-- `syncStoredHeartbeats` (offline.js lines 150-233): no-op when offline or
a pass is already in flight, no-op on an empty snapshot; otherwise set
`syncInProgress`, run `processHeartbeats` over the snapshot and finish with
the final storage write. -/
def syncStoredHeartbeats (fetchSeq : Nat → HttpRequest → Except JsError HttpResponse)
    (btoa : String → String) (st : OfflineState) : SyncResult :=
  if !st.isOnline || st.syncInProgress then ⟨st, [], 0⟩
  else
    let storedHeartbeats := getStoredHeartbeats st
    if storedHeartbeats.length = 0 then ⟨st, [], 0⟩
    else
      let stMid := { st with syncInProgress := true }
      let r := processHeartbeats fetchSeq btoa 0 storedHeartbeats emptyPass
      ⟨syncFinalWrite r stMid, r.attempts, r.catchRuns⟩

/-! Dispatcher side: `WakaTimePlugin` of src/src/main.js. -/

/-- `HEARTBEAT_TIMEOUT = 120000` (main.js line 40). -/
def HEARTBEAT_TIMEOUT : Nat := 120000

/-- `this.lastHeartbeat` (main.js lines 52-56): `file` and `project` start as
`null`. -/
structure LastHeartbeat where
  time : Nat
  file : Option String
  project : Option String
deriving Repr, DecidableEq

/-- The constructor's `lastHeartbeat` value (main.js lines 52-56). -/
def initialLastHeartbeat : LastHeartbeat := ⟨0, none, none⟩

/-- `isDuplicateHeartbeat(file, project, now)` (main.js lines 123-131): false
when `lastHeartbeat.file` is falsy (null or empty string), else the stored
file and project must match and `now - lastHeartbeat.time` be inside the
window.  The subtraction is JavaScript number subtraction, taken over `ℤ`. -/
def isDuplicateHeartbeat (lhb : LastHeartbeat) (file project : String)
    (now : Nat) : Bool :=
  if falsyStr lhb.file then false
  else
    lhb.file = some file && lhb.project = some project &&
      (now : ℤ) - (lhb.time : ℤ) < (HEARTBEAT_TIMEOUT : ℤ)

/-- The slice of an Acode editor file object that `sendHeartbeat` reads:
`file.uri` (the dedup key) and `file.filename` (the wire entity). -/
structure AFile where
  uri : String
  filename : String
deriving Repr, DecidableEq

/-- Plugin state touched by `sendHeartbeat`: the throttle slot and the
offline handler. -/
structure PluginState where
  lastHeartbeat : LastHeartbeat
  offline : OfflineState
deriving Repr, DecidableEq

/-- The observable outcome of one `sendHeartbeat` call: the updated plugin
state, how many `fetch` calls it made, the payload it assembled (when the
event survived the key and throttle guards), and whether the event was
accepted. -/
structure SendOutcome where
  state : PluginState
  networkCalls : Nat
  payload : Option HeartbeatData
  accepted : Bool
deriving Repr, DecidableEq

/-- `sendHeartbeat(file, isWrite)` (main.js lines 133-217).  `apiKey` is
`this.settings.apiKey` (falsy-guarded), `project` is `getProjectName(file)`,
`plugin` / `language` are the strings computed by `getPlugin()` /
`getFileLanguage(file)`, `navigatorOnLine` feeds `isDeviceOnline`, and
`fetchP` is the settled promise of the online-branch `fetch`.  The throttle
key is `file.uri`; the payload entity is `file.filename`. -/
def sendHeartbeat (st : PluginState) (apiKey : Option String) (file : AFile)
    (project : String) (isWrite : Bool) (plugin language : String)
    (navigatorOnLine : Bool) (fetchP : Except JsError HttpResponse)
    (now : Nat) : SendOutcome :=
  if falsyStr apiKey then ⟨st, 0, none, false⟩
  else
    let key := apiKey.getD ""
    let fileuri := file.uri
    if isDuplicateHeartbeat st.lastHeartbeat fileuri project now then
      ⟨st, 0, none, false⟩
    else
      let lhb' : LastHeartbeat := ⟨now, some fileuri, some project⟩
      let data : HeartbeatData :=
        ⟨file.filename, "file", (now : ℚ) / 1000, isWrite, plugin, language, project⟩
      if !isDeviceOnline st.offline navigatorOnLine then
        ⟨⟨lhb', storeHeartbeat st.offline data key now⟩, 0, some data, true⟩
      else
        match fetchP with
        | Except.ok response =>
          if response.ok then ⟨⟨lhb', st.offline⟩, 1, some data, true⟩
          else ⟨⟨lhb', storeHeartbeat st.offline data key now⟩, 1, some data, true⟩
        | Except.error _ =>
          ⟨⟨lhb', storeHeartbeat st.offline data key now⟩, 1, some data, true⟩

/-! Auxiliary definitions used by the statements below. -/

/-- A settled `fetch` outcome that counts as a delivery failure: a transport
rejection, or a response outside 2xx. -/
def deliveryFails : Except JsError HttpResponse → Bool
  | Except.ok r => !r.ok
  | Except.error _ => true

/-- `storeHeartbeat` as a fold step over `(data, apiKey, now)` triples. -/
def enqStep (st : OfflineState) (x : HeartbeatData × String × Nat) : OfflineState :=
  storeHeartbeat st x.1 x.2.1 x.2.2

/-- `mkQueued` over a `(data, apiKey, now)` triple. -/
def mkQueuedT (x : HeartbeatData × String × Nat) : QueuedHeartbeat :=
  mkQueued x.1 x.2.1 x.2.2

/-- A fresh offline handler state: online, no pass in flight, storage key
absent. -/
def emptyOffline : OfflineState := ⟨true, false, none⟩

/-- A sample heartbeat payload for concrete scenarios. -/
def sampleHb : HeartbeatData := ⟨"a.js", "file", 0, false, "pl", "javascript", "proj"⟩

/-- A second, distinct sample payload. -/
def sampleHbB : HeartbeatData := ⟨"b.js", "file", 1, false, "pl", "javascript", "proj"⟩

/-- A sample stored record with `retryCount = 0`. -/
def sampleQ : QueuedHeartbeat := mkQueued sampleHb "key" 0

/-- A network that rejects every request (transport failure). -/
def failFetchSeq : Nat → HttpRequest → Except JsError HttpResponse :=
  fun _ _ => Except.error "network error"

/-- A concrete instantiation of the base64 oracle. -/
def btoaSample : String → String := fun s => s

/-! ## Lemmas about the delivery client -/

/-- `syncSingleHeartbeat` always settles fulfilled, with the boolean
classification of the fetch outcome. -/
theorem syncSingleHeartbeat_eq (fetchFn : HttpRequest → Except JsError HttpResponse)
    (btoa : String → String) (hb : QueuedHeartbeat) :
    syncSingleHeartbeat fetchFn btoa hb =
      Except.ok (match fetchFn (syncRequest btoa hb) with
        | Except.ok r => r.ok
        | Except.error _ => false) := by
  cases h : fetchFn (syncRequest btoa hb) with
  | ok r => simp [syncSingleHeartbeat, pThen, pCatch, h]
  | error e => simp [syncSingleHeartbeat, pThen, pCatch, h]

/-- A failing fetch outcome makes `syncSingleHeartbeat` settle to `false`. -/
theorem syncSingleHeartbeat_of_fails
    (fetchFn : HttpRequest → Except JsError HttpResponse)
    (btoa : String → String) (hb : QueuedHeartbeat)
    (h : deliveryFails (fetchFn (syncRequest btoa hb)) = true) :
    syncSingleHeartbeat fetchFn btoa hb = Except.ok false := by
  rw [syncSingleHeartbeat_eq]
  cases hf : fetchFn (syncRequest btoa hb) with
  | ok r =>
    rw [hf] at h
    simp only [deliveryFails, Bool.not_eq_true'] at h
    simp [h]
  | error e => simp

/-! ## Lemmas about one sync pass -/

/-- The pass hands every snapshot record to the delivery client, in snapshot
order, appended to whatever the accumulator already recorded. -/
theorem processHeartbeats_attempts
    (fetchSeq : Nat → HttpRequest → Except JsError HttpResponse)
    (btoa : String → String) :
    ∀ (hbs : List QueuedHeartbeat) (i : Nat) (acc : PassResult),
      (processHeartbeats fetchSeq btoa i hbs acc).attempts = acc.attempts ++ hbs := by
  intro hbs
  induction hbs with
  | nil => intro i acc; simp [processHeartbeats]
  | cons hb rest ih =>
    intro i acc
    simp only [processHeartbeats]
    cases h : syncSingleHeartbeat (fetchSeq i) btoa hb with
    | ok success =>
      by_cases hs : success = true
      · subst hs; simp [ih]
      · replace hs : success = false := by simpa using hs
        subst hs
        by_cases hr : (bumpRetry hb).retryCount < maxRetries <;> simp [hr, ih]
    | error e =>
      by_cases hr : (bumpRetry hb).retryCount < maxRetries <;> simp [hr, ih]

/-- The `.catch` callback of the per-record chain never runs: the delivery
client always settles fulfilled. -/
theorem processHeartbeats_catchRuns
    (fetchSeq : Nat → HttpRequest → Except JsError HttpResponse)
    (btoa : String → String) :
    ∀ (hbs : List QueuedHeartbeat) (i : Nat) (acc : PassResult),
      (processHeartbeats fetchSeq btoa i hbs acc).catchRuns = acc.catchRuns := by
  intro hbs
  induction hbs with
  | nil => intro i acc; simp [processHeartbeats]
  | cons hb rest ih =>
    intro i acc
    simp only [processHeartbeats]
    rw [syncSingleHeartbeat_eq]
    cases hf : fetchSeq i (syncRequest btoa hb) with
    | ok r =>
      by_cases hok : r.ok = true
      · simp [hok, ih]
      · replace hok : r.ok = false := by simpa using hok
        simp only [hok]
        by_cases hr : (bumpRetry hb).retryCount < maxRetries <;> simp [hr, ih]
    | error e =>
      by_cases hr : (bumpRetry hb).retryCount < maxRetries <;> simp [hr, ih]

/-- The records the pass keeps for retry extend the accumulator by a
subsequence of the bumped snapshot: relative order is preserved. -/
theorem processHeartbeats_failed_decomp
    (fetchSeq : Nat → HttpRequest → Except JsError HttpResponse)
    (btoa : String → String) :
    ∀ (hbs : List QueuedHeartbeat) (i : Nat) (acc : PassResult),
      ∃ t, (processHeartbeats fetchSeq btoa i hbs acc).failedSyncs =
          acc.failedSyncs ++ t ∧ List.Sublist t (hbs.map bumpRetry) := by
  intro hbs
  induction hbs with
  | nil => intro i acc; exact ⟨[], by simp [processHeartbeats], by simp⟩
  | cons hb rest ih =>
    intro i acc
    simp only [processHeartbeats]
    cases h : syncSingleHeartbeat (fetchSeq i) btoa hb with
    | ok success =>
      by_cases hs : success = true
      · subst hs
        simp only [if_pos rfl]
        obtain ⟨t, ht, hsub⟩ := ih (i + 1) _
        exact ⟨t, by simpa using ht, List.Sublist.cons _ hsub⟩
      · replace hs : success = false := by simpa using hs
        subst hs
        by_cases hr : (bumpRetry hb).retryCount < maxRetries
        · simp only [Bool.false_eq_true, if_false, if_pos hr]
          obtain ⟨t, ht, hsub⟩ := ih (i + 1)
            { acc with
              failedSyncs := acc.failedSyncs ++ [bumpRetry hb]
              attempts := acc.attempts ++ [hb] }
          exact ⟨bumpRetry hb :: t, by simpa using ht,
            List.Sublist.cons₂ _ hsub⟩
        · simp only [Bool.false_eq_true, if_false, if_neg hr]
          obtain ⟨t, ht, hsub⟩ := ih (i + 1) _
          exact ⟨t, by simpa using ht, List.Sublist.cons _ hsub⟩
    | error e =>
      by_cases hr : (bumpRetry hb).retryCount < maxRetries
      · simp only [if_pos hr]
        obtain ⟨t, ht, hsub⟩ := ih (i + 1)
          { acc with
            failedSyncs := acc.failedSyncs ++ [bumpRetry hb]
            attempts := acc.attempts ++ [hb]
            catchRuns := acc.catchRuns + 1 }
        exact ⟨bumpRetry hb :: t, by simpa using ht,
          List.Sublist.cons₂ _ hsub⟩
      · simp only [if_neg hr]
        obtain ⟨t, ht, hsub⟩ := ih (i + 1) _
        exact ⟨t, by simpa using ht, List.Sublist.cons _ hsub⟩

/-- The guard clauses of `syncStoredHeartbeats` (offline.js lines 153-160):
offline, pass in flight, or empty snapshot means the invocation resolves at
once with nothing changed and nothing attempted. -/
theorem syncStoredHeartbeats_guard
    (fetchSeq : Nat → HttpRequest → Except JsError HttpResponse)
    (btoa : String → String) (st : OfflineState)
    (h : st.syncInProgress = true ∨ st.isOnline = false ∨
      getStoredHeartbeats st = []) :
    syncStoredHeartbeats fetchSeq btoa st = ⟨st, [], 0⟩ := by
  rcases h with h | h | h
  · simp [syncStoredHeartbeats, h]
  · simp [syncStoredHeartbeats, h]
  · by_cases hg : (!st.isOnline || st.syncInProgress) = true
    · simp [syncStoredHeartbeats, hg]
    · simp [syncStoredHeartbeats, hg, h]

/-- A pass over a one-record queue whose delivery fails: the record is bumped
and kept exactly while its new `retryCount` is below the budget. -/
theorem syncStoredHeartbeats_single_fail
    (fetchSeq : Nat → HttpRequest → Except JsError HttpResponse)
    (btoa : String → String) (q : QueuedHeartbeat)
    (hfail : ∀ i req, deliveryFails (fetchSeq i req) = true) :
    syncStoredHeartbeats fetchSeq btoa ⟨true, false, some [q]⟩ =
      ⟨⟨true, false,
        if q.retryCount + 1 < maxRetries then some [bumpRetry q] else none⟩,
        [q], 0⟩ := by
  have hsync := syncSingleHeartbeat_of_fails (fetchSeq 0) btoa q (hfail 0 _)
  by_cases hr : q.retryCount + 1 < maxRetries
  · have hr' : (bumpRetry q).retryCount < maxRetries := by simpa [bumpRetry] using hr
    simp [syncStoredHeartbeats, getStoredHeartbeats, processHeartbeats, hsync,
      hr, hr', syncFinalWrite, emptyPass, clearStoredHeartbeats]
  · have hr' : ¬ (bumpRetry q).retryCount < maxRetries := by
      simpa [bumpRetry] using hr
    simp [syncStoredHeartbeats, getStoredHeartbeats, processHeartbeats, hsync,
      hr, hr', syncFinalWrite, emptyPass, clearStoredHeartbeats]

/-- The handler state left behind by one invocation of
`syncStoredHeartbeats`. -/
def syncPassState (fetchSeq : Nat → HttpRequest → Except JsError HttpResponse)
    (btoa : String → String) (st : OfflineState) : OfflineState :=
  (syncStoredHeartbeats fetchSeq btoa st).state

/-! ## Lemmas about the dispatcher -/

/-- An event that passes the key and throttle guards is accepted: the
throttle slot is overwritten with `(now, uri, project)` and the payload's
entity is the base filename. -/
theorem sendHeartbeat_accepted (st : PluginState) (key : String) (file : AFile)
    (project : String) (isWrite : Bool) (pl lg : String) (nav : Bool)
    (fetchP : Except JsError HttpResponse) (now : Nat)
    (hkey : key ≠ "")
    (hdup : isDuplicateHeartbeat st.lastHeartbeat file.uri project now
      = false) :
    (sendHeartbeat st (some key) file project isWrite pl lg nav fetchP
        now).accepted = true ∧
    (sendHeartbeat st (some key) file project isWrite pl lg nav fetchP
        now).state.lastHeartbeat = ⟨now, some file.uri, some project⟩ ∧
    (sendHeartbeat st (some key) file project isWrite pl lg nav fetchP
        now).payload = some ⟨file.filename, "file", (now : ℚ) / 1000, isWrite,
          pl, lg, project⟩ := by
  have hk : falsyStr (some key) = false := by simp [falsyStr, hkey]
  simp only [sendHeartbeat, hk, hdup, Bool.false_eq_true, if_false]
  by_cases hon : (!isDeviceOnline st.offline nav) = true
  · simp [hon]
  · cases fetchP with
    | ok r =>
      by_cases hok : r.ok = true
      · simp [hon, hok]
      · simp [hon, hok]
    | error e => simp [hon]

/-- A throttled event leaves everything untouched and is not accepted. -/
theorem sendHeartbeat_rejected (st : PluginState) (key : String) (file : AFile)
    (project : String) (isWrite : Bool) (pl lg : String) (nav : Bool)
    (fetchP : Except JsError HttpResponse) (now : Nat)
    (hdup : isDuplicateHeartbeat st.lastHeartbeat file.uri project now
      = true) :
    sendHeartbeat st (some key) file project isWrite pl lg nav fetchP now =
      ⟨st, 0, none, false⟩ := by
  by_cases hk : falsyStr (some key) = true
  · simp [sendHeartbeat, hk]
  · simp [sendHeartbeat, hk, hdup]

/-- Against a stored slot for the same non-empty uri and project, the dedup
test is exactly the window test on `Δ`. -/
theorem isDuplicate_same_key (u p : String) (t Δ : Nat) (hu : u ≠ "") :
    (isDuplicateHeartbeat ⟨t, some u, some p⟩ u p (t + Δ) = true) ↔
      Δ < HEARTBEAT_TIMEOUT := by
  simp only [isDuplicateHeartbeat, falsyStr, hu, decide_eq_true_eq, if_false,
    Bool.and_eq_true, decide_eq_true_eq, HEARTBEAT_TIMEOUT]
  constructor
  · intro h
    have := h.2
    omega
  · intro h
    refine ⟨⟨by simp, by simp⟩, ?_⟩
    omega

/-- Against a stored slot whose uri or project differs, the dedup test is
always false, whatever the timing. -/
theorem isDuplicate_ne_key (u₁ p₁ u₂ p₂ : String) (t now : Nat)
    (h : u₂ ≠ u₁ ∨ p₂ ≠ p₁) :
    isDuplicateHeartbeat ⟨t, some u₁, some p₁⟩ u₂ p₂ now = false := by
  by_cases hu : u₁ = ""
  · simp [isDuplicateHeartbeat, falsyStr, hu]
  · rcases h with h | h
    · have hne : ¬ u₁ = u₂ := fun e => h e.symm
      simp [isDuplicateHeartbeat, falsyStr, hu, hne]
    · have hne : ¬ p₁ = p₂ := fun e => h e.symm
      simp [isDuplicateHeartbeat, falsyStr, hu, hne]

/-- `storeHeartbeat` below capacity is a plain append. -/
theorem getStored_storeHeartbeat_small (st : OfflineState) (d : HeartbeatData)
    (k : String) (now : Nat) (h : (getStoredHeartbeats st).length < 1000) :
    getStoredHeartbeats (storeHeartbeat st d k now) =
      getStoredHeartbeats st ++ [mkQueued d k now] := by
  simp only [getStoredHeartbeats] at h
  simp only [storeHeartbeat, getStoredHeartbeats, List.length_append,
    List.length_cons, List.length_nil]
  rw [if_neg (by omega)]
  rfl

/-! ## The claims -/

/-- C1 (code bug in `syncStoredHeartbeats`): a heartbeat enqueued by
`storeHeartbeat` after the pass has read its snapshot is gone once the pass's
final storage write runs, because that write overwrites the key wholesale
with the pass's `failedSyncs`.  Concretely: the queue holds `sampleQ`; a pass
snapshots it; `sampleHbB` is enqueued mid-pass (it is then present in
storage); the delivery of `sampleQ` fails, and the pass's completion leaves
storage holding exactly the bumped `sampleQ` — the mid-pass record is lost. -/
theorem syncPass_drops_midpass_enqueue :
    mkQueued sampleHbB "key" 5 ∈
      getStoredHeartbeats
        (storeHeartbeat ⟨true, true, some [sampleQ]⟩ sampleHbB "key" 5) ∧
    syncFinalWrite
        (processHeartbeats failFetchSeq btoaSample 0
          (getStoredHeartbeats ⟨true, false, some [sampleQ]⟩) emptyPass)
        (storeHeartbeat ⟨true, true, some [sampleQ]⟩ sampleHbB "key" 5) =
      ⟨true, false, some [bumpRetry sampleQ]⟩ ∧
    mkQueued sampleHbB "key" 5 ∉
      getStoredHeartbeats ⟨true, false, some [bumpRetry sampleQ]⟩ := by
  refine ⟨?_, ?_, ?_⟩ <;> decide

/-- C2: with every delivery failing, a single queued record starting at
`retryCount = 0` survives the first pass with `retryCount = 1` and the second
with `retryCount = 2` (`maxRetries - 1`), and from the third pass on the
stored queue no longer contains it — the record is dropped and never
re-enqueued. -/
theorem retry_budget
    (fetchSeq : Nat → HttpRequest → Except JsError HttpResponse)
    (btoa : String → String) (q : QueuedHeartbeat)
    (hfail : ∀ i req, deliveryFails (fetchSeq i req) = true)
    (hq : q.retryCount = 0) :
    syncPassState fetchSeq btoa ⟨true, false, some [q]⟩ =
        ⟨true, false, some [{ q with retryCount := 1 }]⟩ ∧
    (syncPassState fetchSeq btoa)^[2] ⟨true, false, some [q]⟩ =
        ⟨true, false, some [{ q with retryCount := 2 }]⟩ ∧
    ∀ n, 3 ≤ n →
      ((syncPassState fetchSeq btoa)^[n] ⟨true, false, some [q]⟩).storage
        = none := by
  have h1 : syncPassState fetchSeq btoa ⟨true, false, some [q]⟩ =
      ⟨true, false, some [{ q with retryCount := 1 }]⟩ := by
    rw [syncPassState, syncStoredHeartbeats_single_fail _ _ _ hfail]
    simp [hq, bumpRetry, maxRetries]
  have h2 : syncPassState fetchSeq btoa
      ⟨true, false, some [{ q with retryCount := 1 }]⟩ =
      ⟨true, false, some [{ q with retryCount := 2 }]⟩ := by
    rw [syncPassState, syncStoredHeartbeats_single_fail _ _ _ hfail]
    simp [bumpRetry, maxRetries]
  have h3 : syncPassState fetchSeq btoa
      ⟨true, false, some [{ q with retryCount := 2 }]⟩ =
      ⟨true, false, none⟩ := by
    rw [syncPassState, syncStoredHeartbeats_single_fail _ _ _ hfail]
    simp [bumpRetry, maxRetries]
  have hE : syncPassState fetchSeq btoa ⟨true, false, none⟩ =
      ⟨true, false, none⟩ := by
    rw [syncPassState, syncStoredHeartbeats_guard fetchSeq btoa
      ⟨true, false, none⟩ (Or.inr (Or.inr rfl))]
  have e1 : (syncPassState fetchSeq btoa)^[1] ⟨true, false, some [q]⟩ =
      syncPassState fetchSeq btoa ⟨true, false, some [q]⟩ :=
    congrFun (Function.iterate_one (syncPassState fetchSeq btoa)) _
  have e2 : (syncPassState fetchSeq btoa)^[2] ⟨true, false, some [q]⟩ =
      syncPassState fetchSeq btoa
        ((syncPassState fetchSeq btoa)^[1] ⟨true, false, some [q]⟩) :=
    Function.iterate_succ_apply' (syncPassState fetchSeq btoa) 1 _
  have e3 : (syncPassState fetchSeq btoa)^[3] ⟨true, false, some [q]⟩ =
      syncPassState fetchSeq btoa
        ((syncPassState fetchSeq btoa)^[2] ⟨true, false, some [q]⟩) :=
    Function.iterate_succ_apply' (syncPassState fetchSeq btoa) 2 _
  have hit2 : (syncPassState fetchSeq btoa)^[2] ⟨true, false, some [q]⟩ =
      ⟨true, false, some [{ q with retryCount := 2 }]⟩ := by
    rw [e2, e1, h1, h2]
  refine ⟨h1, hit2, ?_⟩
  intro n hn
  obtain ⟨m, rfl⟩ : ∃ m, n = m + 3 := ⟨n - 3, by omega⟩
  have hit3 : (syncPassState fetchSeq btoa)^[3] ⟨true, false, some [q]⟩ =
      ⟨true, false, none⟩ := by
    rw [e3, hit2, h3]
  rw [Function.iterate_add_apply, hit3, Function.iterate_fixed hE]

/-- C2 at a concrete input: a fresh record against a network that always
rejects is kept with `retryCount` 1, then 2, and is gone from the third pass
on. -/
theorem retry_budget_witness :
    ((∀ i req, deliveryFails (failFetchSeq i req) = true) ∧
      sampleQ.retryCount = 0) ∧
    (syncPassState failFetchSeq btoaSample ⟨true, false, some [sampleQ]⟩ =
        ⟨true, false, some [{ sampleQ with retryCount := 1 }]⟩ ∧
      (syncPassState failFetchSeq btoaSample)^[2] ⟨true, false, some [sampleQ]⟩ =
        ⟨true, false, some [{ sampleQ with retryCount := 2 }]⟩ ∧
      ∀ n, 3 ≤ n →
        ((syncPassState failFetchSeq btoaSample)^[n]
          ⟨true, false, some [sampleQ]⟩).storage = none) :=
  ⟨⟨fun _ _ => rfl, rfl⟩,
    retry_budget failFetchSeq btoaSample sampleQ (fun _ _ => rfl) rfl⟩

/-- Folding `storeHeartbeat` from an empty store: the stored queue is the
input sequence (as stored records) with everything but the newest 1000
dropped. -/
theorem storeHeartbeat_foldl (st0 : OfflineState)
    (h0 : getStoredHeartbeats st0 = []) :
    ∀ l : List (HeartbeatData × String × Nat),
      getStoredHeartbeats (l.foldl enqStep st0) =
        (l.map mkQueuedT).drop (l.length - 1000) := by
  intro l
  induction l using List.reverseRecOn with
  | nil => simpa using h0
  | append_singleton l x ih =>
    rw [List.foldl_append]
    simp only [List.foldl_cons, List.foldl_nil]
    have hstep : getStoredHeartbeats (enqStep (l.foldl enqStep st0) x) =
        (let s := getStoredHeartbeats (l.foldl enqStep st0) ++ [mkQueuedT x]
         if s.length > 1000 then s.drop (s.length - 1000) else s) := rfl
    rw [hstep, ih]
    have hA : (l.map mkQueuedT).length = l.length := List.length_map _ _
    by_cases hm : l.length < 1000
    · have h1 : l.length - 1000 = 0 := by omega
      have h2 : (l ++ [x]).length - 1000 = 0 := by
        rw [List.length_append]; simp; omega
      have hlen : ((l.map mkQueuedT).drop (l.length - 1000) ++ [mkQueuedT x]).length
          = l.length + 1 := by
        rw [List.length_append, List.length_drop, hA]; simp; omega
      simp only [hlen]
      rw [if_neg (by omega), h1, h2, List.drop_zero, List.drop_zero,
        List.map_append]
      simp
    · push_neg at hm
      have hdlen : ((l.map mkQueuedT).drop (l.length - 1000)).length = 1000 := by
        rw [List.length_drop, hA]; omega
      have hlen : ((l.map mkQueuedT).drop (l.length - 1000) ++ [mkQueuedT x]).length
          = 1001 := by
        simp only [List.length_append, List.length_cons, List.length_nil, hdlen]
      simp only [hlen]
      rw [if_pos (by omega)]
      have hone : (1001 : Nat) - 1000 = 1 := by omega
      rw [hone, List.drop_append_of_le_length (by omega), List.drop_drop,
        List.map_append, List.length_append,
        List.drop_append_of_le_length
          (by simp only [List.length_map, List.length_cons, List.length_nil]
              omega)]
      have h3 : l.length - 1000 + 1 = l.length + [x].length - 1000 := by
        simp only [List.length_cons, List.length_nil]
        omega
      rw [h3]
      simp

/-- C4: starting from an empty store, enqueuing `1000 + k` records (k > 0)
through `storeHeartbeat` leaves exactly the 1000 most recently enqueued
records, in insertion order, with the oldest `k` evicted; and no enqueue
sequence ever leaves more than 1000 stored records. -/
theorem storeHeartbeat_queue_bound (l : List (HeartbeatData × String × Nat))
    (k : Nat) (hlen : l.length = 1000 + k) (hk : 0 < k) :
    getStoredHeartbeats (l.foldl enqStep emptyOffline) =
      (l.map mkQueuedT).drop k ∧
    (getStoredHeartbeats (l.foldl enqStep emptyOffline)).length = 1000 ∧
    ∀ l2 : List (HeartbeatData × String × Nat),
      (getStoredHeartbeats (l2.foldl enqStep emptyOffline)).length ≤ 1000 := by
  have hfold := storeHeartbeat_foldl emptyOffline rfl l
  refine ⟨?_, ?_, ?_⟩
  · have hidx : l.length - 1000 = k := by omega
    rw [hfold, hidx]
  · rw [hfold, List.length_drop, List.length_map]
    omega
  · intro l2
    rw [storeHeartbeat_foldl emptyOffline rfl l2, List.length_drop,
      List.length_map]
    omega

/-- C4 at a concrete input: 1001 identical enqueues keep the newest 1000. -/
theorem storeHeartbeat_queue_bound_witness :
    ((List.replicate 1001 (sampleHb, "key", (0 : Nat))).length = 1000 + 1 ∧
      0 < 1) ∧
    (getStoredHeartbeats
        ((List.replicate 1001 (sampleHb, "key", (0 : Nat))).foldl enqStep
          emptyOffline) =
      ((List.replicate 1001 (sampleHb, "key", (0 : Nat))).map mkQueuedT).drop 1 ∧
    (getStoredHeartbeats
        ((List.replicate 1001 (sampleHb, "key", (0 : Nat))).foldl enqStep
          emptyOffline)).length = 1000 ∧
    ∀ l2 : List (HeartbeatData × String × Nat),
      (getStoredHeartbeats (l2.foldl enqStep emptyOffline)).length ≤ 1000) := by
  have h1 : (List.replicate 1001 (sampleHb, "key", (0 : Nat))).length
      = 1000 + 1 := by
    norm_num [List.length_replicate]
  exact ⟨⟨h1, Nat.one_pos⟩,
    storeHeartbeat_queue_bound (List.replicate 1001 (sampleHb, "key", (0 : Nat)))
      1 h1 Nat.one_pos⟩

/-- C5: the pass hands the snapshot's records to the delivery client in FIFO
(snapshot) order, the records kept for retry form an order-preserving
subsequence of the bumped snapshot, and the pass's final write persists
exactly those kept records (or clears the key when none were kept). -/
theorem sync_pass_fifo_order
    (fetchSeq : Nat → HttpRequest → Except JsError HttpResponse)
    (btoa : String → String) (hbs : List QueuedHeartbeat) :
    (processHeartbeats fetchSeq btoa 0 hbs emptyPass).attempts = hbs ∧
    List.Sublist (processHeartbeats fetchSeq btoa 0 hbs emptyPass).failedSyncs
      (hbs.map bumpRetry) ∧
    ∀ st : OfflineState, st.isOnline = true → st.syncInProgress = false →
      getStoredHeartbeats st = hbs → hbs ≠ [] →
      (syncStoredHeartbeats fetchSeq btoa st).state.storage =
        (if (processHeartbeats fetchSeq btoa 0 hbs emptyPass).failedSyncs.length
            > 0
         then some (processHeartbeats fetchSeq btoa 0 hbs emptyPass).failedSyncs
         else none) := by
  refine ⟨?_, ?_, ?_⟩
  · simpa [emptyPass] using processHeartbeats_attempts fetchSeq btoa hbs 0 emptyPass
  · obtain ⟨t, ht, hsub⟩ := processHeartbeats_failed_decomp fetchSeq btoa hbs 0 emptyPass
    rw [ht]
    simpa [emptyPass] using hsub
  · intro st hon hprog hsnap hne
    have hg : (!st.isOnline || st.syncInProgress) = false := by
      simp [hon, hprog]
    have hlen : ¬ (getStoredHeartbeats st).length = 0 := by
      simpa [hsnap, List.length_eq_zero] using hne
    simp only [syncStoredHeartbeats, hg, Bool.false_eq_true, if_false,
      if_neg hlen, hsnap, syncFinalWrite, clearStoredHeartbeats]
    have hlen2 : ¬ hbs.length = 0 := by
      simpa [List.length_eq_zero] using hne
    rw [if_neg hlen2]
    by_cases hf :
        (processHeartbeats fetchSeq btoa 0 hbs emptyPass).failedSyncs.length > 0
    · rw [if_pos hf, if_pos hf]
    · rw [if_neg hf, if_neg hf]

/-- C8: the request built for a queued record carries exactly the seven
semantic fields in its body — changing the bookkeeping fields `retryCount`,
`timestamp` or `apiKey` cannot change the body — and the credential appears
only in the `Authorization` header. -/
theorem syncRequest_clean_fields (btoa : String → String) (hb : QueuedHeartbeat)
    (rc ts : Nat) (key : String) :
    (syncRequest btoa hb).body = cleanHeartbeat hb ∧
    cleanHeartbeat hb = ⟨hb.entity, hb.type, hb.time, hb.is_write, hb.plugin,
      hb.language, hb.project⟩ ∧
    (syncRequest btoa { hb with retryCount := rc, timestamp := ts }).body =
      (syncRequest btoa hb).body ∧
    (syncRequest btoa { hb with apiKey := key }).body =
      (syncRequest btoa hb).body ∧
    (syncRequest btoa hb).authorization = "Basic " ++ btoa hb.apiKey :=
  ⟨rfl, rfl, rfl, rfl, rfl⟩

/-- C10: `syncSingleHeartbeat` always settles fulfilled with a boolean —
`true` exactly when the response is 2xx (`response.ok`), `false` for every
other status and for every transport rejection — so the `.catch` branch of
the pass's per-record chain never runs. -/
theorem syncSingleHeartbeat_total_boolean
    (fetchFn : HttpRequest → Except JsError HttpResponse)
    (fetchSeq : Nat → HttpRequest → Except JsError HttpResponse)
    (btoa : String → String) (hb : QueuedHeartbeat)
    (hbs : List QueuedHeartbeat) :
    syncSingleHeartbeat fetchFn btoa hb =
      Except.ok (match fetchFn (syncRequest btoa hb) with
        | Except.ok r => r.ok
        | Except.error _ => false) ∧
    (syncSingleHeartbeat fetchFn btoa hb = Except.ok true ↔
      ∃ r, fetchFn (syncRequest btoa hb) = Except.ok r ∧ r.ok = true) ∧
    (processHeartbeats fetchSeq btoa 0 hbs emptyPass).catchRuns = 0 := by
  refine ⟨syncSingleHeartbeat_eq _ _ _, ?_, ?_⟩
  · rw [syncSingleHeartbeat_eq]
    cases hf : fetchFn (syncRequest btoa hb) with
    | ok r => simp [hf]
    | error e => simp [hf]
  · rw [processHeartbeats_catchRuns]
    rfl

/-- C3 (amended: the entity identifier `file.uri` must be non-empty, because
`isDuplicateHeartbeat`'s falsy guard treats an empty stored uri like the
absence of any previous heartbeat): with a configured API key and a fresh
throttle slot, the first event is always accepted; a second event for the
same (uri, project) at `t + Δ` is rejected as duplicate when `Δ < 120000` ms
and accepted when `Δ ≥ 120000` ms; and a second event differing in uri or in
project is never throttled, whatever the timing. -/
theorem throttle_window (st0 : PluginState) (key : String) (f : AFile)
    (p : String) (w₁ w₂ : Bool) (pl lg : String) (on₁ on₂ : Bool)
    (fp₁ fp₂ : Except JsError HttpResponse) (t Δ : Nat)
    (hkey : key ≠ "") (huri : f.uri ≠ "")
    (hfirst : st0.lastHeartbeat.file = none) :
    (sendHeartbeat st0 (some key) f p w₁ pl lg on₁ fp₁ t).accepted = true ∧
    (Δ < HEARTBEAT_TIMEOUT →
      (sendHeartbeat (sendHeartbeat st0 (some key) f p w₁ pl lg on₁ fp₁
          t).state (some key) f p w₂ pl lg on₂ fp₂ (t + Δ)).accepted
        = false) ∧
    (HEARTBEAT_TIMEOUT ≤ Δ →
      (sendHeartbeat (sendHeartbeat st0 (some key) f p w₁ pl lg on₁ fp₁
          t).state (some key) f p w₂ pl lg on₂ fp₂ (t + Δ)).accepted
        = true) ∧
    (∀ (f₂ : AFile) (p₂ : String) (w : Bool) (pl₂ lg₂ : String) (onx : Bool)
        (fpx : Except JsError HttpResponse),
      f₂.uri ≠ f.uri ∨ p₂ ≠ p →
      (sendHeartbeat (sendHeartbeat st0 (some key) f p w₁ pl lg on₁ fp₁
          t).state (some key) f₂ p₂ w pl₂ lg₂ onx fpx (t + Δ)).accepted
        = true) := by
  have hdup0 : isDuplicateHeartbeat st0.lastHeartbeat f.uri p t = false := by
    simp [isDuplicateHeartbeat, falsyStr, hfirst]
  obtain ⟨hacc1, hstate1, hpay1⟩ :=
    sendHeartbeat_accepted st0 key f p w₁ pl lg on₁ fp₁ t hkey hdup0
  refine ⟨hacc1, ?_, ?_, ?_⟩
  · intro hΔ
    have hdup : isDuplicateHeartbeat
        (sendHeartbeat st0 (some key) f p w₁ pl lg on₁ fp₁ t).state.lastHeartbeat
        f.uri p (t + Δ) = true := by
      rw [hstate1]
      exact (isDuplicate_same_key f.uri p t Δ huri).mpr hΔ
    rw [sendHeartbeat_rejected _ key f p w₂ pl lg on₂ fp₂ (t + Δ) hdup]
  · intro hΔ
    have hdup : isDuplicateHeartbeat
        (sendHeartbeat st0 (some key) f p w₁ pl lg on₁ fp₁ t).state.lastHeartbeat
        f.uri p (t + Δ) = false := by
      rw [hstate1]
      by_cases hB : isDuplicateHeartbeat ⟨t, some f.uri, some p⟩ f.uri p (t + Δ)
          = true
      · exact absurd ((isDuplicate_same_key f.uri p t Δ huri).mp hB) (by omega)
      · simpa using hB
    exact (sendHeartbeat_accepted _ key f p w₂ pl lg on₂ fp₂ (t + Δ) hkey
      hdup).1
  · intro f₂ p₂ w pl₂ lg₂ onx fpx hne
    have hdup : isDuplicateHeartbeat
        (sendHeartbeat st0 (some key) f p w₁ pl lg on₁ fp₁ t).state.lastHeartbeat
        f₂.uri p₂ (t + Δ) = false := by
      rw [hstate1]
      exact isDuplicate_ne_key f.uri p f₂.uri p₂ t (t + Δ) hne
    exact (sendHeartbeat_accepted _ key f₂ p₂ w pl₂ lg₂ onx fpx (t + Δ) hkey
      hdup).1

/-- C3 counterexample to the claim as frozen: for the (entity, project) pair
whose `file.uri` is the empty string, two events 0 ms apart are BOTH
accepted, while the claim requires exactly one accepted heartbeat for any
pair at `Δ < 120000` ms. -/
theorem throttle_window_empty_uri_cex :
    (sendHeartbeat ⟨initialLastHeartbeat, emptyOffline⟩ (some "k") ⟨"", "x.js"⟩
        "p" false "pl" "lg" true (Except.ok ⟨201⟩) 0).accepted = true ∧
    (sendHeartbeat
        (sendHeartbeat ⟨initialLastHeartbeat, emptyOffline⟩ (some "k")
          ⟨"", "x.js"⟩ "p" false "pl" "lg" true (Except.ok ⟨201⟩) 0).state
        (some "k") ⟨"", "x.js"⟩ "p" false "pl" "lg" true (Except.ok ⟨201⟩)
        0).accepted = true ∧
    (0 : Nat) < HEARTBEAT_TIMEOUT := by
  refine ⟨?_, ?_, ?_⟩ <;> decide

/-- C3 at a concrete input: a non-empty uri, a configured key and a fresh
slot, with the second event 7 ms after the first. -/
theorem throttle_window_witness :
    ("k" ≠ "" ∧ (⟨"dir/a.js", "a.js"⟩ : AFile).uri ≠ "" ∧
      (⟨initialLastHeartbeat, emptyOffline⟩ : PluginState).lastHeartbeat.file
        = none) ∧
    ((sendHeartbeat ⟨initialLastHeartbeat, emptyOffline⟩ (some "k")
        ⟨"dir/a.js", "a.js"⟩ "p" false "pl" "lg" true (Except.ok ⟨201⟩)
        0).accepted = true ∧
    (7 < HEARTBEAT_TIMEOUT →
      (sendHeartbeat (sendHeartbeat ⟨initialLastHeartbeat, emptyOffline⟩
          (some "k") ⟨"dir/a.js", "a.js"⟩ "p" false "pl" "lg" true
          (Except.ok ⟨201⟩) 0).state (some "k") ⟨"dir/a.js", "a.js"⟩ "p" true
          "pl" "lg" true (Except.ok ⟨201⟩) (0 + 7)).accepted = false) ∧
    (HEARTBEAT_TIMEOUT ≤ 7 →
      (sendHeartbeat (sendHeartbeat ⟨initialLastHeartbeat, emptyOffline⟩
          (some "k") ⟨"dir/a.js", "a.js"⟩ "p" false "pl" "lg" true
          (Except.ok ⟨201⟩) 0).state (some "k") ⟨"dir/a.js", "a.js"⟩ "p" true
          "pl" "lg" true (Except.ok ⟨201⟩) (0 + 7)).accepted = true) ∧
    (∀ (f₂ : AFile) (p₂ : String) (w : Bool) (pl₂ lg₂ : String) (onx : Bool)
        (fpx : Except JsError HttpResponse),
      f₂.uri ≠ (⟨"dir/a.js", "a.js"⟩ : AFile).uri ∨ p₂ ≠ "p" →
      (sendHeartbeat (sendHeartbeat ⟨initialLastHeartbeat, emptyOffline⟩
          (some "k") ⟨"dir/a.js", "a.js"⟩ "p" false "pl" "lg" true
          (Except.ok ⟨201⟩) 0).state (some "k") f₂ p₂ w pl₂ lg₂ onx fpx
          (0 + 7)).accepted = true)) :=
  ⟨⟨by decide, by decide, rfl⟩,
    throttle_window ⟨initialLastHeartbeat, emptyOffline⟩ "k"
      ⟨"dir/a.js", "a.js"⟩ "p" false true "pl" "lg" true true
      (Except.ok ⟨201⟩) (Except.ok ⟨201⟩) 0 7 (by decide) (by decide) rfl⟩

/-- C6: while the device is reported offline, a `sendHeartbeat` invocation
with a configured key and a non-throttled record performs no fetch and
results in exactly one `storeHeartbeat` append of a `QueuedHeartbeat` with
`retryCount = 0`. -/
theorem offline_routing (st : PluginState) (key : String) (file : AFile)
    (project : String) (isWrite : Bool) (pl lg : String) (nav : Bool)
    (fetchP : Except JsError HttpResponse) (now : Nat)
    (hkey : key ≠ "")
    (hdup : isDuplicateHeartbeat st.lastHeartbeat file.uri project now
      = false)
    (hoff : isDeviceOnline st.offline nav = false) :
    (sendHeartbeat st (some key) file project isWrite pl lg nav fetchP
        now).networkCalls = 0 ∧
    (sendHeartbeat st (some key) file project isWrite pl lg nav fetchP
        now).state.offline =
      storeHeartbeat st.offline ⟨file.filename, "file", (now : ℚ) / 1000,
        isWrite, pl, lg, project⟩ key now ∧
    ((getStoredHeartbeats st.offline).length < 1000 →
      getStoredHeartbeats (sendHeartbeat st (some key) file project isWrite
          pl lg nav fetchP now).state.offline =
        getStoredHeartbeats st.offline ++
          [mkQueued ⟨file.filename, "file", (now : ℚ) / 1000, isWrite, pl, lg,
            project⟩ key now]) ∧
    (mkQueued ⟨file.filename, "file", (now : ℚ) / 1000, isWrite, pl, lg,
      project⟩ key now).retryCount = 0 := by
  have hk : falsyStr (some key) = false := by simp [falsyStr, hkey]
  have hmain : sendHeartbeat st (some key) file project isWrite pl lg nav
      fetchP now =
      ⟨⟨⟨now, some file.uri, some project⟩,
        storeHeartbeat st.offline ⟨file.filename, "file", (now : ℚ) / 1000,
          isWrite, pl, lg, project⟩ key now⟩, 0,
        some ⟨file.filename, "file", (now : ℚ) / 1000, isWrite, pl, lg,
          project⟩, true⟩ := by
    simp [sendHeartbeat, hk, hdup, hoff]
  refine ⟨by rw [hmain], by rw [hmain], ?_, rfl⟩
  intro hlt
  rw [hmain]
  exact getStored_storeHeartbeat_small st.offline _ key now hlt

/-- C6 at a concrete input: handler flag online but `navigator.onLine`
false. -/
theorem offline_routing_witness :
    ("k" ≠ "" ∧
      isDuplicateHeartbeat
        (⟨initialLastHeartbeat, emptyOffline⟩ : PluginState).lastHeartbeat
        (⟨"dir/a.js", "a.js"⟩ : AFile).uri "p" 0 = false ∧
      isDeviceOnline (⟨initialLastHeartbeat, emptyOffline⟩ :
        PluginState).offline false = false) ∧
    ((sendHeartbeat ⟨initialLastHeartbeat, emptyOffline⟩ (some "k")
        ⟨"dir/a.js", "a.js"⟩ "p" true "pl" "lg" false (Except.error "down")
        0).networkCalls = 0 ∧
    (sendHeartbeat ⟨initialLastHeartbeat, emptyOffline⟩ (some "k")
        ⟨"dir/a.js", "a.js"⟩ "p" true "pl" "lg" false (Except.error "down")
        0).state.offline =
      storeHeartbeat
        (⟨initialLastHeartbeat, emptyOffline⟩ : PluginState).offline
        ⟨(⟨"dir/a.js", "a.js"⟩ : AFile).filename, "file", ((0 : Nat) : ℚ) / 1000,
          true, "pl", "lg", "p"⟩ "k" 0 ∧
    ((getStoredHeartbeats
        (⟨initialLastHeartbeat, emptyOffline⟩ : PluginState).offline).length
        < 1000 →
      getStoredHeartbeats (sendHeartbeat ⟨initialLastHeartbeat, emptyOffline⟩
          (some "k") ⟨"dir/a.js", "a.js"⟩ "p" true "pl" "lg" false
          (Except.error "down") 0).state.offline =
        getStoredHeartbeats
          (⟨initialLastHeartbeat, emptyOffline⟩ : PluginState).offline ++
          [mkQueued ⟨(⟨"dir/a.js", "a.js"⟩ : AFile).filename, "file",
            ((0 : Nat) : ℚ) / 1000, true, "pl", "lg", "p"⟩ "k" 0]) ∧
    (mkQueued ⟨(⟨"dir/a.js", "a.js"⟩ : AFile).filename, "file",
      ((0 : Nat) : ℚ) / 1000, true, "pl", "lg", "p"⟩ "k" 0).retryCount = 0) :=
  ⟨⟨by decide, by decide, rfl⟩,
    offline_routing ⟨initialLastHeartbeat, emptyOffline⟩ "k"
      ⟨"dir/a.js", "a.js"⟩ "p" true "pl" "lg" false (Except.error "down") 0
      (by decide) (by decide) rfl⟩

/-- C9: the throttle key in `sendHeartbeat` is the full `file.uri` while the
wire payload's entity is only `file.filename`: two files with different uris
sharing a basename are throttled independently — the second event is
accepted even 0 ms after the first — yet their payloads carry the same
entity. -/
theorem uri_key_filename_entity (st0 : PluginState) (key : String)
    (f₁ f₂ : AFile) (p : String) (w₁ w₂ : Bool) (pl lg : String)
    (on₁ on₂ : Bool) (fp₁ fp₂ : Except JsError HttpResponse) (t Δ : Nat)
    (hkey : key ≠ "") (hfirst : st0.lastHeartbeat.file = none)
    (hu : f₂.uri ≠ f₁.uri) (hn : f₁.filename = f₂.filename) :
    (sendHeartbeat st0 (some key) f₁ p w₁ pl lg on₁ fp₁ t).accepted = true ∧
    (sendHeartbeat (sendHeartbeat st0 (some key) f₁ p w₁ pl lg on₁ fp₁
        t).state (some key) f₂ p w₂ pl lg on₂ fp₂ (t + Δ)).accepted = true ∧
    ∃ d₁ d₂ : HeartbeatData,
      (sendHeartbeat st0 (some key) f₁ p w₁ pl lg on₁ fp₁ t).payload
        = some d₁ ∧
      (sendHeartbeat (sendHeartbeat st0 (some key) f₁ p w₁ pl lg on₁ fp₁
          t).state (some key) f₂ p w₂ pl lg on₂ fp₂ (t + Δ)).payload
        = some d₂ ∧
      d₁.entity = d₂.entity := by
  have hdup0 : isDuplicateHeartbeat st0.lastHeartbeat f₁.uri p t = false := by
    simp [isDuplicateHeartbeat, falsyStr, hfirst]
  obtain ⟨hacc1, hstate1, hpay1⟩ :=
    sendHeartbeat_accepted st0 key f₁ p w₁ pl lg on₁ fp₁ t hkey hdup0
  have hdup2 : isDuplicateHeartbeat
      (sendHeartbeat st0 (some key) f₁ p w₁ pl lg on₁ fp₁ t).state.lastHeartbeat
      f₂.uri p (t + Δ) = false := by
    rw [hstate1]
    exact isDuplicate_ne_key f₁.uri p f₂.uri p t (t + Δ) (Or.inl hu)
  obtain ⟨hacc2, hstate2, hpay2⟩ :=
    sendHeartbeat_accepted _ key f₂ p w₂ pl lg on₂ fp₂ (t + Δ) hkey hdup2
  exact ⟨hacc1, hacc2, _, _, hpay1, hpay2, hn⟩

/-- C9 at a concrete input: `a/x.js` and `b/x.js`. -/
theorem uri_key_filename_entity_witness :
    ("k" ≠ "" ∧
      (⟨initialLastHeartbeat, emptyOffline⟩ : PluginState).lastHeartbeat.file
        = none ∧
      (⟨"b/x.js", "x.js"⟩ : AFile).uri ≠ (⟨"a/x.js", "x.js"⟩ : AFile).uri ∧
      (⟨"a/x.js", "x.js"⟩ : AFile).filename
        = (⟨"b/x.js", "x.js"⟩ : AFile).filename) ∧
    ((sendHeartbeat ⟨initialLastHeartbeat, emptyOffline⟩ (some "k")
        ⟨"a/x.js", "x.js"⟩ "p" false "pl" "lg" true (Except.ok ⟨201⟩)
        0).accepted = true ∧
    (sendHeartbeat (sendHeartbeat ⟨initialLastHeartbeat, emptyOffline⟩
        (some "k") ⟨"a/x.js", "x.js"⟩ "p" false "pl" "lg" true
        (Except.ok ⟨201⟩) 0).state (some "k") ⟨"b/x.js", "x.js"⟩ "p" false
        "pl" "lg" true (Except.ok ⟨201⟩) (0 + 0)).accepted = true ∧
    ∃ d₁ d₂ : HeartbeatData,
      (sendHeartbeat ⟨initialLastHeartbeat, emptyOffline⟩ (some "k")
        ⟨"a/x.js", "x.js"⟩ "p" false "pl" "lg" true (Except.ok ⟨201⟩)
        0).payload = some d₁ ∧
      (sendHeartbeat (sendHeartbeat ⟨initialLastHeartbeat, emptyOffline⟩
        (some "k") ⟨"a/x.js", "x.js"⟩ "p" false "pl" "lg" true
        (Except.ok ⟨201⟩) 0).state (some "k") ⟨"b/x.js", "x.js"⟩ "p" false
        "pl" "lg" true (Except.ok ⟨201⟩) (0 + 0)).payload = some d₂ ∧
      d₁.entity = d₂.entity) :=
  ⟨⟨by decide, rfl, by decide, rfl⟩,
    uri_key_filename_entity ⟨initialLastHeartbeat, emptyOffline⟩ "k"
      ⟨"a/x.js", "x.js"⟩ ⟨"b/x.js", "x.js"⟩ "p" false false "pl" "lg" true
      true (Except.ok ⟨201⟩) (Except.ok ⟨201⟩) 0 0 (by decide) rfl
      (by decide) rfl⟩

/-- C7: invoking `syncStoredHeartbeats` while a pass is already in progress,
or while offline, or with an empty stored queue, resolves as a no-op: no
delivery attempt is made, the `.catch` callback never runs, and the handler
state — stored queue included — is returned unchanged. -/
theorem sync_pass_noop
    (fetchSeq : Nat → HttpRequest → Except JsError HttpResponse)
    (btoa : String → String) (st : OfflineState)
    (h : st.syncInProgress = true ∨ st.isOnline = false ∨
      getStoredHeartbeats st = []) :
    syncStoredHeartbeats fetchSeq btoa st = ⟨st, [], 0⟩ :=
  syncStoredHeartbeats_guard fetchSeq btoa st h

/-- C7 witness state: invoking the pass while offline is a no-op. -/
theorem sync_pass_noop_witness :
    (⟨false, false, none⟩ : OfflineState).isOnline = false ∧
    syncStoredHeartbeats failFetchSeq btoaSample ⟨false, false, none⟩ =
      ⟨⟨false, false, none⟩, [], 0⟩ :=
  ⟨rfl, sync_pass_noop failFetchSeq btoaSample ⟨false, false, none⟩
    (Or.inr (Or.inl rfl))⟩

end AcodeWakatime
